import Mathlib

/-!
Shallow embedding of the Shadow simulator core (`src/main/core/controller.c`)
and of the file-transfer plug-in's code-to-string helper
(`src/plug-ins/filetransfer/shd-fileserver.c`), with theorems checking the
natural-language specification against the code.

Machine integers — including `SimulationTime`, the unsigned 64-bit count of
nanoseconds — are modelled as `Nat`; `guint64` arithmetic that can wrap is
taken modulo `2 ^ 64` exactly where the C program computes modulo `2 ^ 64`.
-/

namespace Shadow

/-- Modulus of `guint64` arithmetic. -/
def U64_MOD : Nat := 2 ^ 64

/-- `G_MAXUINT64`. -/
def G_MAXUINT64 : Nat := 2 ^ 64 - 1

/-- Modelled from the spec: the internal time unit is the nanosecond, so one
millisecond is `1000000` nanoseconds (`SIMTIME_ONE_MILLISECOND` lives in
`main/core/support/definitions.h`, which is outside the given sources). -/
def SIMTIME_ONE_MILLISECOND : Nat := 1000000

/-- The fields of `struct _Controller` that the window-advancement code reads
and writes (`controller.c`, lines 32-66).  The borrowed `config`, the GLib
timer, the graph/routing/DNS handles and the `Manager*` are modelled where the
operations that use them are; `random` is modelled by the seed it was created
from. -/
structure Controller where
  randomSeed : Nat
  minJumpTimeConfig : Nat
  minJumpTime : Nat
  nextMinJumpTime : Nat
  executeWindowStart : Nat
  executeWindowEnd : Nat
  endTime : Nat
  bootstrapEndTime : Nat
  deriving Repr, DecidableEq

/-- A controller state is well formed when every `guint64` field holds a
representable value. -/
def Controller.WF (c : Controller) : Prop :=
  c.minJumpTimeConfig < U64_MOD ∧ c.minJumpTime < U64_MOD ∧
    c.nextMinJumpTime < U64_MOD ∧ c.executeWindowStart < U64_MOD ∧
    c.executeWindowEnd < U64_MOD ∧ c.endTime < U64_MOD ∧
    c.bootstrapEndTime < U64_MOD

/-- `_controller_getMinTimeJump` (`controller.c`, lines 139-153): use the
committed topology minimum if positive, else a 10 ms default; then raise to the
configured floor when one is set. -/
def _controller_getMinTimeJump (c : Controller) : Nat :=
  let minJumpTime :=
    if c.minJumpTime > 0 then c.minJumpTime else 10 * SIMTIME_ONE_MILLISECOND
  if c.minJumpTimeConfig > 0 ∧ minJumpTime < c.minJumpTimeConfig then
    c.minJumpTimeConfig
  else
    minJumpTime

/-- The commit performed at the top of `controller_managerFinishedCurrentRound`
(`controller.c`, lines 497-500): a non-zero `nextMinJumpTime` becomes the
effective `minJumpTime`. -/
def commitNextMinJumpTime (c : Controller) : Controller :=
  if c.nextMinJumpTime ≠ 0 then { c with minJumpTime := c.nextMinJumpTime } else c

/-- Result of `controller_managerFinishedCurrentRound`: the post-state, the two
out-parameters `*executeWindowStart` / `*executeWindowEnd`, and the returned
`gboolean`. -/
structure RoundResult where
  controller : Controller
  executeWindowStart : Nat
  executeWindowEnd : Nat
  keepRunning : Bool
  deriving Repr, DecidableEq

/-- `controller_managerFinishedCurrentRound` (`controller.c`, lines 487-521).
The sum `minNextEventTime + _controller_getMinTimeJump(...)` is `guint64`
addition, hence taken modulo `2 ^ 64`. -/
def controller_managerFinishedCurrentRound (c : Controller)
    (minNextEventTime : Nat) : RoundResult :=
  let c1 := commitNextMinJumpTime c
  let newStart := minNextEventTime
  let newEnd0 := (minNextEventTime + _controller_getMinTimeJump c1) % U64_MOD
  let newEnd := if newEnd0 > c1.endTime then c1.endTime else newEnd0
  let c2 := { c1 with executeWindowStart := newStart, executeWindowEnd := newEnd }
  { controller := c2
    executeWindowStart := newStart
    executeWindowEnd := newEnd
    keepRunning := newStart < newEnd }

/-- `utility_assert` failure aborts the process. -/
inductive AssertViolation where
  | assertionFailed
  deriving Repr, DecidableEq

/-- The C cast `(SimulationTime)minPathLatency` of a non-negative `gdouble`
truncates toward zero, i.e. takes the floor.  (For a negative argument the C
cast is undefined behaviour; the claims only concern non-negative latencies.
`gdouble` values are exact rationals, and no floating-point arithmetic happens
before the cast, so a `ℚ` argument models the double exactly.) -/
def castDoubleToU64 (q : ℚ) : Nat := (Int.floor q).toNat

/-- `controller_updateMinTimeJump` (`controller.c`, lines 155-169): truncate
the millisecond latency to a whole number of milliseconds, convert to
nanoseconds, and record it as the pending `nextMinJumpTime` when it improves on
the current pending value; the body asserts the converted value is positive. -/
def controller_updateMinTimeJump (c : Controller) (minPathLatency : ℚ) :
    Except AssertViolation Controller :=
  let minPathLatencySimTime :=
    (castDoubleToU64 minPathLatency * SIMTIME_ONE_MILLISECOND) % U64_MOD
  if c.nextMinJumpTime = 0 ∨ minPathLatencySimTime < c.nextMinJumpTime then
    if minPathLatencySimTime > 0 then
      Except.ok { c with nextMinJumpTime := minPathLatencySimTime }
    else
      Except.error AssertViolation.assertionFailed
  else
    Except.ok c

/-- `ProcessOptions` as seen through the accessors the controller calls
(`processoptions_getPath` returns `NULL` when the executable cannot be
resolved, modelled by `none` in `path`; `rawPath` is only used in the error
message). -/
structure ProcessOptions where
  path : Option String
  rawPath : String
  args : List String
  environment : String
  startTime : Nat
  stopTime : Nat
  quantity : Nat
  deriving Repr, DecidableEq

/-- `HostOptions` as seen through the accessors the controller calls
(`hostoptions_getIpAddr` fails when no explicit address is configured,
modelled by `ipAddr : Option Nat`; likewise the two optional bandwidths). -/
structure HostOptions where
  name : String
  quantity : Nat
  ipAddr : Option Nat
  networkNodeId : Nat
  logLevel : Nat
  heartbeatLogLevel : Nat
  heartbeatLogInfo : Nat
  heartbeatInterval : Nat
  pcapDirectory : Option String
  bandwidthDown : Option Nat
  bandwidthUp : Option Nat
  processes : List ProcessOptions
  deriving Repr, DecidableEq

/-- `ConfigOptions` as seen through the `config_get*` accessors the controller
calls. -/
structure ConfigOptions where
  seed : Nat
  runahead : Nat
  stopTime : Nat
  bootstrapEndTime : Nat
  workers : Nat
  useShortestPath : Bool
  logLevel : Nat
  socketSendBuffer : Nat
  socketRecvBuffer : Nat
  socketSendAutotune : Bool
  socketRecvAutotune : Bool
  interfaceBuffer : Nat
  interfaceQdisc : Nat
  hosts : List HostOptions
  deriving Repr, DecidableEq

/-- Result of `controller_new`: the fresh controller (allocated zeroed by
`g_new0` and then initialised) together with the log messages the call
emitted. -/
structure NewControllerResult where
  controller : Controller
  logs : List String
  deriving Repr, DecidableEq

/-- `controller_new` (`controller.c`, lines 80-105): allocate zeroed, store
the config, seed the random source from `config_getSeed`, capture
`minJumpTimeConfig` from `config_getRunahead` — and then, despite the comment
at the top of the function forbidding it, emit an `info` log message. -/
def controller_new (config : ConfigOptions) : NewControllerResult :=
  { controller :=
      { randomSeed := config.seed
        minJumpTimeConfig := config.runahead
        minJumpTime := 0
        nextMinJumpTime := 0
        executeWindowStart := 0
        executeWindowEnd := 0
        endTime := 0
        bootstrapEndTime := 0 }
    logs := ["simulation controller created"] }

/-- `_controller_initializeTimeWindows` (`controller.c`, lines 187-207). -/
def _controller_initializeTimeWindows (c : Controller) (config : ConfigOptions) :
    Controller :=
  let c := { c with endTime := config.stopTime }
  let c :=
    if config.workers > 0 then
      { c with executeWindowStart := 0, executeWindowEnd := _controller_getMinTimeJump c }
    else
      { c with executeWindowStart := 0, executeWindowEnd := G_MAXUINT64 }
  { c with bootstrapEndTime := config.bootstrapEndTime }

/-- A node of the network graph, as seen through
`networkgraph_nodeBandwidthDownBits` / `networkgraph_nodeBandwidthUpBits`:
an id and the two optional default bandwidths. -/
structure GraphNode where
  id : Nat
  bandwidthDownBits : Option Nat
  bandwidthUpBits : Option Nat
  deriving Repr, DecidableEq

/-- The loaded `NetworkGraph`, reduced to what the registration code reads. -/
structure NetworkGraph where
  nodes : List GraphNode
  deriving Repr, DecidableEq

/-- `networkgraph_nodeBandwidthDownBits`: succeeds (returning the value)
exactly when the node exists and carries a downstream-bandwidth attribute. -/
def networkgraph_nodeBandwidthDownBits (g : NetworkGraph) (node : Nat) :
    Option Nat :=
  match g.nodes.find? (fun n => n.id = node) with
  | some n => n.bandwidthDownBits
  | none => none

/-- `networkgraph_nodeBandwidthUpBits`: upstream counterpart. -/
def networkgraph_nodeBandwidthUpBits (g : NetworkGraph) (node : Nat) :
    Option Nat :=
  match g.nodes.find? (fun n => n.id = node) with
  | some n => n.bandwidthUpBits
  | none => none

/-- Error kinds of the registration phase (spec section 7). -/
inductive Err where
  | errAmbiguousAddress
  | errAddressInUse
  | errReservedAddress
  | errBandwidth
  | errPluginPath
  | errAddressPoolExhausted
  deriving Repr, DecidableEq

/-- Modelled from the spec: the reserved IPv4 ranges of `IpAssignment`
(spec section 3): `0.0.0.0/8`, `127.0.0.0/8`, `224.0.0.0/4` and
`255.255.255.255` may never be assigned. -/
def reservedIp (ip : Nat) : Bool :=
  let highByte := ip / 2 ^ 24
  highByte = 0 ∨ highByte = 127 ∨ (224 ≤ highByte ∧ highByte ≤ 239) ∨
    ip = 2 ^ 32 - 1

/-- Modelled from the spec: the `IpAssignment_u32` state (spec sections 3 and
4.2; the implementation is not among the given sources).  `assignments` maps
each assigned IPv4 to its graph node, newest first; `pool` is the remaining
sequence of 32-bit words the deterministic seeded random source will draw. -/
structure IpAssignment where
  assignments : List (Nat × Nat)
  pool : List Nat
  deriving Repr, DecidableEq

/-- The set of currently assigned IPv4 addresses. -/
def assignedIps (a : IpAssignment) : List Nat := a.assignments.map Prod.fst

/-- Modelled from the spec: `ipassignment_assignHostWithIp` binds the given
IPv4 to the given graph node, rejecting reserved addresses and addresses
already in use (spec section 4.2; node existence is enforced at graph-load
time per spec section 4.1). -/
def ipassignment_assignHostWithIp (a : IpAssignment) (node ip : Nat) :
    Except Err IpAssignment :=
  if reservedIp ip then
    Except.error Err.errReservedAddress
  else if (assignedIps a).contains ip then
    Except.error Err.errAddressInUse
  else
    Except.ok { a with assignments := (ip, node) :: a.assignments }

/-- Modelled from the spec: draw 32-bit words from the seeded source,
rejecting reserved ranges and already-assigned values, until an acceptable
address appears (spec section 4.2 pool policy).  Returns the address and the
rest of the draw sequence. -/
def poolDraw (assigned : List Nat) : List Nat → Option (Nat × List Nat)
  | [] => none
  | w :: rest =>
    let cand := w % 2 ^ 32
    if reservedIp cand ∨ assigned.contains cand then poolDraw assigned rest
    else some (cand, rest)

/-- Modelled from the spec: `ipassignment_assignHost` picks a fresh IPv4 from
the deterministic pool and binds it to the node (spec section 4.2).  The model
works with a finite draw sequence, so it reports exhaustion as an error. -/
def ipassignment_assignHost (a : IpAssignment) (node : Nat) :
    Except Err (IpAssignment × Nat) :=
  match poolDraw (assignedIps a) a.pool with
  | none => Except.error Err.errAddressPoolExhausted
  | some (ip, rest) =>
    Except.ok ({ assignments := (ip, node) :: a.assignments, pool := rest }, ip)

/-- The `HostParameters` record assembled by `_controller_registerHostCallback`
(`controller.c`, lines 296-338). -/
structure HostParameters where
  hostname : String
  cpuFrequency : Nat
  cpuThreshold : Nat
  cpuPrecision : Nat
  ipAddr : Nat
  logLevel : Nat
  heartbeatLogLevel : Nat
  heartbeatLogInfo : Nat
  heartbeatInterval : Nat
  pcapDir : Option String
  sendBufSize : Nat
  recvBufSize : Nat
  autotuneSendBuf : Bool
  autotuneRecvBuf : Bool
  interfaceBufSize : Nat
  qdisc : Nat
  requestedBwDownBits : Nat
  requestedBwUpBits : Nat
  deriving Repr, DecidableEq

/-- A virtual process handed to `manager_addNewVirtualProcess`: hostname,
plugin path, start/stop time, argv (argv`[0]` is the resolved path; the
terminating `NULL` of the C array is implicit in the list model) and
environment string. -/
structure VirtualProcess where
  hostname : String
  plugin : String
  startTime : Nat
  stopTime : Nat
  argv : List String
  environment : String
  deriving Repr, DecidableEq

/-- The `Manager`, reduced to what the registration code observes: the raw CPU
frequency it reports, and the hosts and processes it has been told to create.
Each added host is recorded together with the `HostOptions` entry it was
expanded from. -/
structure Manager where
  rawCPUFrequency : Nat
  hosts : List (HostOptions × HostParameters)
  processes : List VirtualProcess
  deriving Repr, DecidableEq

/-- The mutable state threaded through host registration. -/
structure RegState where
  ipAssignment : IpAssignment
  manager : Manager
  deriving Repr, DecidableEq

/-- `_controller_registerProcessCallback` (`controller.c`, lines 223-262):
resolve the plugin path (error when unresolvable), build argv with the
resolved path in front, and add the process `quantity` times. -/
def _controller_registerProcessCallback (mgr : Manager) (hostname : String)
    (proc : ProcessOptions) : Manager × Option Err :=
  match proc.path with
  | none => (mgr, some Err.errPluginPath)
  | some plugin =>
    let argv := plugin :: proc.args
    let added := (List.range proc.quantity).map fun _ =>
      { hostname := hostname
        plugin := plugin
        startTime := proc.startTime
        stopTime := proc.stopTime
        argv := argv
        environment := proc.environment : VirtualProcess }
    ({ mgr with processes := mgr.processes ++ added }, none)

/-- `hostoptions_iterProcesses`: run the process callback over each process
entry in order, stopping at the first failure (state changes made before the
failure persist). -/
def iterProcesses (hostname : String) :
    Manager → List ProcessOptions → Manager × Option Err
  | mgr, [] => (mgr, none)
  | mgr, p :: rest =>
    match _controller_registerProcessCallback mgr hostname p with
    | (mgr', some e) => (mgr', some e)
    | (mgr', none) => iterProcesses hostname mgr' rest

/-- The IP-assignment step of one host instance (`controller.c`, lines
306-316): a fixed address uses `ipassignment_assignHostWithIp`, otherwise a
fresh address is drawn with `ipassignment_assignHost`. -/
def assignIpForInstance (a : IpAssignment) (node : Nat) (ipOpt : Option Nat) :
    Except Err (IpAssignment × Nat) :=
  match ipOpt with
  | some fixed =>
    match ipassignment_assignHostWithIp a node fixed with
    | Except.error e => Except.error e
    | Except.ok a' => Except.ok (a', fixed)
  | none => ipassignment_assignHost a node

/-- The body of the per-instance loop of `_controller_registerHostCallback`
(`controller.c`, lines 295-384): compose the hostname, assign the IP, resolve
the two bandwidths (the graph value is read first and the host option, when
present, overwrites it), fail with a bandwidth error when either direction is
missing or zero, hand the `HostParameters` to the manager, then register the
host's processes.  On failure the state mutations already performed remain, as
they do in the C code. -/
def registerOneInstance (config : ConfigOptions) (graph : NetworkGraph)
    (host : HostOptions) (managerCpuFreq : Nat) (i : Nat) (st : RegState) :
    RegState × Option Err :=
  let hostname :=
    if host.quantity > 1 then host.name ++ toString (i + 1) else host.name
  let graphNode := host.networkNodeId
  match assignIpForInstance st.ipAssignment graphNode host.ipAddr with
  | Except.error e => (st, some e)
  | Except.ok (ipa, ip) =>
    let st := { st with ipAssignment := ipa }
    let graphBwDown := networkgraph_nodeBandwidthDownBits graph graphNode
    let graphBwUp := networkgraph_nodeBandwidthUpBits graph graphNode
    let foundBwDown := graphBwDown.isSome || host.bandwidthDown.isSome
    let foundBwUp := graphBwUp.isSome || host.bandwidthUp.isSome
    let requestedBwDownBits := host.bandwidthDown.getD (graphBwDown.getD 0)
    let requestedBwUpBits := host.bandwidthUp.getD (graphBwUp.getD 0)
    if !foundBwDown then (st, some Err.errBandwidth)
    else if !foundBwUp then (st, some Err.errBandwidth)
    else if requestedBwDownBits = 0 ∨ requestedBwUpBits = 0 then
      (st, some Err.errBandwidth)
    else
      let params : HostParameters :=
        { hostname := hostname
          cpuFrequency := max 0 managerCpuFreq
          cpuThreshold := 0
          cpuPrecision := 200
          ipAddr := ip
          logLevel := host.logLevel
          heartbeatLogLevel := host.heartbeatLogLevel
          heartbeatLogInfo := host.heartbeatLogInfo
          heartbeatInterval := host.heartbeatInterval
          pcapDir := host.pcapDirectory
          sendBufSize := config.socketSendBuffer
          recvBufSize := config.socketRecvBuffer
          autotuneSendBuf := config.socketSendAutotune
          autotuneRecvBuf := config.socketRecvAutotune
          interfaceBufSize := config.interfaceBuffer
          qdisc := config.interfaceQdisc
          requestedBwDownBits := requestedBwDownBits
          requestedBwUpBits := requestedBwUpBits }
      let st :=
        { st with manager :=
            { st.manager with hosts := st.manager.hosts ++ [(host, params)] } }
      match iterProcesses hostname st.manager host.processes with
      | (mgr', some e) => ({ st with manager := mgr' }, some e)
      | (mgr', none) => ({ st with manager := mgr' }, none)

/-- The `for i in [0, quantity)` loop of `_controller_registerHostCallback`,
stopping at the first failing instance. -/
def registerInstances (config : ConfigOptions) (graph : NetworkGraph)
    (host : HostOptions) (managerCpuFreq : Nat) :
    List Nat → RegState → RegState × Option Err
  | [], st => (st, none)
  | i :: rest, st =>
    match registerOneInstance config graph host managerCpuFreq i st with
    | (st', some e) => (st', some e)
    | (st', none) => registerInstances config graph host managerCpuFreq rest st'

/-- `_controller_registerHostCallback` (`controller.c`, lines 269-388): skip
the entry when its having an explicit address does not match the current pass,
reject an explicit address with quantity above one, then register each
instance. -/
def _controller_registerHostCallback (config : ConfigOptions)
    (graph : NetworkGraph) (managerCpuFreq : Nat)
    (registerIfAddressSpecified : Bool) (st : RegState) (host : HostOptions) :
    RegState × Option Err :=
  let ipAddrSet := host.ipAddr.isSome
  if ipAddrSet ≠ registerIfAddressSpecified then (st, none)
  else if ipAddrSet ∧ host.quantity > 1 then (st, some Err.errAmbiguousAddress)
  else registerInstances config graph host managerCpuFreq
    (List.range host.quantity) st

/-- `config_iterHosts`: run the host callback over each entry in order,
stopping at the first failure. -/
def iterHosts (f : RegState → HostOptions → RegState × Option Err) :
    List HostOptions → RegState → RegState × Option Err
  | [], st => (st, none)
  | h :: rest, st =>
    match f st h with
    | (st', some e) => (st', some e)
    | (st', none) => iterHosts f rest st'

/-- `_controller_registerHosts` (`controller.c`, lines 390-417): pass 1
registers the hosts with a specific IP address, pass 2 the remaining hosts;
pass 2 runs only when pass 1 succeeded. -/
def _controller_registerHosts (config : ConfigOptions) (graph : NetworkGraph)
    (managerCpuFreq : Nat) (st : RegState) : RegState × Option Err :=
  match iterHosts
      (_controller_registerHostCallback config graph managerCpuFreq true)
      config.hosts st with
  | (st', some e) => (st', some e)
  | (st', none) =>
    iterHosts (_controller_registerHostCallback config graph managerCpuFreq false)
      config.hosts st'

/-- The external collaborators `controller_run` interacts with: the outcome of
`networkgraph_load`, whether `manager_new` succeeds (a `NULL` manager triggers
`utility_panic`), the raw CPU frequency the manager reports, the random draw
sequence backing the IP pool, whether `routinginfo_new` succeeds, and the exit
code `manager_free` returns after the simulation. -/
structure World where
  graphLoad : Option NetworkGraph
  managerOk : Bool
  managerCpuFreq : Nat
  ipPool : List Nat
  routingOk : Bool
  managerFreeResult : Nat
  deriving Repr, DecidableEq

/-- The empty registration state `controller_run` starts from:
`ipassignment_new()` plus a manager that has registered nothing yet. -/
def RegState.init (w : World) : RegState :=
  { ipAssignment := { assignments := [], pool := w.ipPool }
    manager := { rawCPUFrequency := w.managerCpuFreq, hosts := [], processes := [] } }

/-- Outcome of `controller_run`: either `utility_panic` aborted the process,
or the function returned an exit code, leaving the registration state
observable. -/
inductive RunResult where
  | panicked
  | exited (code : Nat) (finalState : RegState)
  deriving Repr, DecidableEq

/-- `controller_run` (`controller.c`, lines 419-485), restricted to the
control flow that decides the exit code: graph-load failure returns 1, a
`NULL` manager panics, a host-registration failure returns 1, a routing
construction failure returns 1, and otherwise the result of `manager_free` is
returned.  (Logging, the wall-clock timer and the window initialisation do not
affect the exit code and are modelled with the operations that observe
them.) -/
def controller_run (config : ConfigOptions) (w : World) : RunResult :=
  match w.graphLoad with
  | none => RunResult.exited 1 (RegState.init w)
  | some graph =>
    if !w.managerOk then RunResult.panicked
    else
      match _controller_registerHosts config graph w.managerCpuFreq
          (RegState.init w) with
      | (st, some _) => RunResult.exited 1 st
      | (st, none) =>
        if !w.routingOk then RunResult.exited 1 st
        else RunResult.exited w.managerFreeResult st

/-- The `fileserver_code_strings` table
(`shd-fileserver.c`, lines 40-43): 14 entries. -/
def fileserver_code_strings : List String :=
  ["FS_SUCCESS", "FS_CLOSED", "FS_ERR_INVALID", "FS_ERR_FATAL", "FS_ERR_BADSD",
   "FS_ERR_WOULDBLOCK", "FS_ERR_BUFSPACE", "FS_ERR_SOCKET", "FS_ERR_BIND",
   "FS_ERR_LISTEN", "FS_ERR_ACCEPT", "FS_ERR_RECV", "FS_ERR_SEND",
   "FS_ERR_CLOSE"]

/-- `sizeof(fileserver_code_strings)`: the table is an array of 14 pointers,
8 bytes each on an LP64 platform, so the C expression evaluates to 112 —
a byte count, not an element count. -/
def sizeof_fileserver_code_strings : Nat := fileserver_code_strings.length * 8

/-- Possible outcomes of `fileserver_codetoa`: an in-bounds table entry, the
`NULL` branch, or a read past the end of the table (undefined behaviour in the
C program). -/
inductive CodetoaResult where
  | str (s : String)
  | null
  | oobRead
  deriving Repr, DecidableEq

/-- `fileserver_codetoa` (`shd-fileserver.c`, lines 45-52): return
`fileserver_code_strings[index]` when
`index >= 0 && index < sizeof(fileserver_code_strings)`, else `NULL`.  Since
the bound is the byte count 112, indices 14..111 pass the check and read past
the 14-entry table. -/
def fileserver_codetoa (index : Int) : CodetoaResult :=
  if 0 ≤ index ∧ index < sizeof_fileserver_code_strings then
    match fileserver_code_strings.get? index.toNat with
    | some s => CodetoaResult.str s
    | none => CodetoaResult.oobRead
  else
    CodetoaResult.null

/-- A controller state matching spec scenario S5: `endTime` 100 ms, committed
lookahead 30 ms, no configured runahead floor, current window `[0 ms, 30 ms)`. -/
def s5Controller : Controller :=
  { randomSeed := 1
    minJumpTimeConfig := 0
    minJumpTime := 30 * SIMTIME_ONE_MILLISECOND
    nextMinJumpTime := 0
    executeWindowStart := 0
    executeWindowEnd := 30 * SIMTIME_ONE_MILLISECOND
    endTime := 100 * SIMTIME_ONE_MILLISECOND
    bootstrapEndTime := 0 }

/-- A controller state matching spec scenario S4: configured runahead floor of
5 ms and an observed (not yet committed) topology minimum of 2 ms. -/
def s4Controller : Controller :=
  { randomSeed := 1
    minJumpTimeConfig := 5 * SIMTIME_ONE_MILLISECOND
    minJumpTime := 0
    nextMinJumpTime := 2 * SIMTIME_ONE_MILLISECOND
    executeWindowStart := 0
    executeWindowEnd := 0
    endTime := 100 * SIMTIME_ONE_MILLISECOND
    bootstrapEndTime := 0 }

/-- A controller state with committed lookahead 10 ms and `endTime` 100 ms,
used to exercise the window computation near the `guint64` boundary. -/
def wrapController : Controller :=
  { randomSeed := 1
    minJumpTimeConfig := 0
    minJumpTime := 10 * SIMTIME_ONE_MILLISECOND
    nextMinJumpTime := 0
    executeWindowStart := 0
    executeWindowEnd := 10 * SIMTIME_ONE_MILLISECOND
    endTime := 100 * SIMTIME_ONE_MILLISECOND
    bootstrapEndTime := 0 }

/-- A process-free host entry with an explicit IP address (`10.0.0.5`). -/
def hostWithFixedIp : HostOptions :=
  { name := "A"
    quantity := 1
    ipAddr := some 167772165
    networkNodeId := 0
    logLevel := 0
    heartbeatLogLevel := 0
    heartbeatLogInfo := 0
    heartbeatInterval := 0
    pcapDirectory := none
    bandwidthDown := some 1000000
    bandwidthUp := some 1000000
    processes := [] }

/-- A process-free host entry with no explicit IP address and quantity 2. -/
def hostAutoIp : HostOptions :=
  { name := "B"
    quantity := 2
    ipAddr := none
    networkNodeId := 0
    logLevel := 0
    heartbeatLogLevel := 0
    heartbeatLogInfo := 0
    heartbeatInterval := 0
    pcapDirectory := none
    bandwidthDown := some 1000000
    bandwidthUp := some 1000000
    processes := [] }

/-- A one-node graph with default bandwidths on node 0. -/
def smallGraph : NetworkGraph :=
  { nodes := [{ id := 0, bandwidthDownBits := some 2000000,
                bandwidthUpBits := some 2000000 }] }

/-- A configuration declaring the auto-IP host before the fixed-IP host. -/
def twoHostConfig : ConfigOptions :=
  { seed := 1
    runahead := 0
    stopTime := 100 * SIMTIME_ONE_MILLISECOND
    bootstrapEndTime := 0
    workers := 1
    useShortestPath := true
    logLevel := 0
    socketSendBuffer := 131072
    socketRecvBuffer := 174760
    socketSendAutotune := false
    socketRecvAutotune := false
    interfaceBuffer := 1024000
    interfaceQdisc := 0
    hosts := [hostAutoIp, hostWithFixedIp] }

/-- A draw sequence whose first acceptable word is exactly the fixed address
`10.0.0.5`, followed by two fresh addresses in `11.0.0.0/8`. -/
def demoPool : List Nat := [167772165, 184549377, 184549378]

/-- An external world in which every collaborator succeeds. -/
def demoWorld : World :=
  { graphLoad := some smallGraph
    managerOk := true
    managerCpuFreq := 2200000
    ipPool := demoPool
    routingOk := true
    managerFreeResult := 0 }

/-- `twoHostConfig` with the fixed-IP entry given quantity 3 (spec scenario
S6). -/
def ambiguousConfig : ConfigOptions :=
  { twoHostConfig with
      hosts := [hostAutoIp, { hostWithFixedIp with quantity := 3 }] }

/-! ## Helper lemmas -/

/-- Committing the pending jump time leaves `endTime` unchanged. -/
theorem commit_endTime (c : Controller) :
    (commitNextMinJumpTime c).endTime = c.endTime := by
  unfold commitNextMinJumpTime
  split <;> rfl

/-- Committing the pending jump time leaves the configured floor unchanged. -/
theorem commit_minJumpTimeConfig (c : Controller) :
    (commitNextMinJumpTime c).minJumpTimeConfig = c.minJumpTimeConfig := by
  unfold commitNextMinJumpTime
  split <;> rfl

/-- The committed `minJumpTime`, written out. -/
theorem commit_minJumpTime (c : Controller) :
    (commitNextMinJumpTime c).minJumpTime =
      if c.nextMinJumpTime ≠ 0 then c.nextMinJumpTime else c.minJumpTime := by
  unfold commitNextMinJumpTime
  split <;> rfl

/-- The lookahead in `max` normal form. -/
theorem getMinTimeJump_eq (c : Controller) :
    _controller_getMinTimeJump c =
      max (if c.minJumpTime > 0 then c.minJumpTime
           else 10 * SIMTIME_ONE_MILLISECOND)
        c.minJumpTimeConfig := by
  unfold _controller_getMinTimeJump
  dsimp only
  generalize (if c.minJumpTime > 0 then c.minJumpTime
      else 10 * SIMTIME_ONE_MILLISECOND) = base
  split
  · rename_i h
    exact (max_eq_right (Nat.le_of_lt h.2)).symm
  · rename_i h
    rcases Nat.eq_zero_or_pos c.minJumpTimeConfig with h0 | h0
    · rw [h0]
      exact (max_eq_left (Nat.zero_le _)).symm
    · have hb : ¬ base < c.minJumpTimeConfig := fun hb => h ⟨h0, hb⟩
      exact (max_eq_left (Nat.le_of_not_lt hb)).symm

/-- The lookahead is always positive. -/
theorem getMinTimeJump_pos (c : Controller) :
    0 < _controller_getMinTimeJump c := by
  rw [getMinTimeJump_eq]
  have hbase : 0 < (if c.minJumpTime > 0 then c.minJumpTime
      else 10 * SIMTIME_ONE_MILLISECOND) := by
    split
    · omega
    · norm_num [SIMTIME_ONE_MILLISECOND]
  exact Nat.lt_of_lt_of_le hbase (le_max_left _ _)

/-- The lookahead of a state with representable fields is representable. -/
theorem getMinTimeJump_lt (c : Controller) (h1 : c.minJumpTime < U64_MOD)
    (h2 : c.minJumpTimeConfig < U64_MOD) :
    _controller_getMinTimeJump c < U64_MOD := by
  rw [getMinTimeJump_eq]
  have hbase : (if c.minJumpTime > 0 then c.minJumpTime
      else 10 * SIMTIME_ONE_MILLISECOND) < U64_MOD := by
    split
    · omega
    · norm_num [SIMTIME_ONE_MILLISECOND, U64_MOD]
  exact max_lt hbase h2

/-- The window end computed by a round, written with `min`. -/
theorem round_executeWindowEnd (c : Controller) (m : Nat) :
    (controller_managerFinishedCurrentRound c m).executeWindowEnd =
      min ((m + _controller_getMinTimeJump (commitNextMinJumpTime c)) % U64_MOD)
        c.endTime := by
  unfold controller_managerFinishedCurrentRound
  dsimp only
  rw [commit_endTime]
  generalize (m + _controller_getMinTimeJump (commitNextMinJumpTime c)) % U64_MOD = x
  split
  · rename_i h
    exact (min_eq_right (Nat.le_of_lt h)).symm
  · rename_i h
    exact (min_eq_left (Nat.le_of_not_lt h)).symm

/-- A round keeps running exactly when the returned window is non-empty. -/
theorem round_keepRunning_iff (c : Controller) (m : Nat) :
    (controller_managerFinishedCurrentRound c m).keepRunning = true ↔
      (controller_managerFinishedCurrentRound c m).executeWindowStart <
        (controller_managerFinishedCurrentRound c m).executeWindowEnd :=
  decide_eq_true_iff

/-! ## Window advancement (claims C1, C2) -/

/-- **C1.** For every call `controller_managerFinishedCurrentRound(m)`: a
non-zero `nextMinJumpTime` is first committed into `minJumpTime`; the new
window is `windowStart = m` and
`windowEnd = min(m + getMinTimeJump(), endTime)` (the sum being `guint64`
addition); the new window is stored as well as returned, and
`keepRunning = (windowStart < windowEnd)`.  In particular, with `endTime`
100 ms and lookahead 30 ms, successive calls reporting 0, 30, 60, 90, 100 ms
yield window ends 30, 60, 90, 100, 100 ms and `keepRunning`
true, true, true, true, false. -/
theorem managerFinishedCurrentRound_spec :
    (∀ (c : Controller) (m : Nat),
      (controller_managerFinishedCurrentRound c m).controller.minJumpTime =
          (if c.nextMinJumpTime ≠ 0 then c.nextMinJumpTime else c.minJumpTime)
        ∧ (controller_managerFinishedCurrentRound c m).executeWindowStart = m
        ∧ (controller_managerFinishedCurrentRound c m).executeWindowEnd =
            min ((m + _controller_getMinTimeJump (commitNextMinJumpTime c)) %
                U64_MOD)
              c.endTime
        ∧ (controller_managerFinishedCurrentRound c m).controller.executeWindowStart
            = (controller_managerFinishedCurrentRound c m).executeWindowStart
        ∧ (controller_managerFinishedCurrentRound c m).controller.executeWindowEnd
            = (controller_managerFinishedCurrentRound c m).executeWindowEnd
        ∧ ((controller_managerFinishedCurrentRound c m).keepRunning = true ↔
            (controller_managerFinishedCurrentRound c m).executeWindowStart <
              (controller_managerFinishedCurrentRound c m).executeWindowEnd))
    ∧ (let r1 := controller_managerFinishedCurrentRound s5Controller 0
       let r2 := controller_managerFinishedCurrentRound r1.controller
         (30 * SIMTIME_ONE_MILLISECOND)
       let r3 := controller_managerFinishedCurrentRound r2.controller
         (60 * SIMTIME_ONE_MILLISECOND)
       let r4 := controller_managerFinishedCurrentRound r3.controller
         (90 * SIMTIME_ONE_MILLISECOND)
       let r5 := controller_managerFinishedCurrentRound r4.controller
         (100 * SIMTIME_ONE_MILLISECOND)
       r1.executeWindowEnd = 30 * SIMTIME_ONE_MILLISECOND
       ∧ r1.keepRunning = true
       ∧ r2.executeWindowEnd = 60 * SIMTIME_ONE_MILLISECOND
       ∧ r2.keepRunning = true
       ∧ r3.executeWindowEnd = 90 * SIMTIME_ONE_MILLISECOND
       ∧ r3.keepRunning = true
       ∧ r4.executeWindowEnd = 100 * SIMTIME_ONE_MILLISECOND
       ∧ r4.keepRunning = true
       ∧ r5.executeWindowEnd = 100 * SIMTIME_ONE_MILLISECOND
       ∧ r5.keepRunning = false) := by
  constructor
  · intro c m
    exact ⟨commit_minJumpTime c, rfl, round_executeWindowEnd c m, rfl, rfl,
      round_keepRunning_iff c m⟩
  · decide

/-- **C2.** `getMinTimeJump()` returns
`max(minJumpTime if minJumpTime > 0 else 10 ms, minJumpTimeConfig)`; with a
configured floor of 5 ms and an observed topology minimum of 2 ms, once the
observation is committed at a window boundary `getMinTimeJump()` returns 5 ms
(the config floor wins). -/
theorem getMinTimeJump_spec :
    (∀ c : Controller,
      _controller_getMinTimeJump c =
        max (if c.minJumpTime > 0 then c.minJumpTime
             else 10 * SIMTIME_ONE_MILLISECOND)
          c.minJumpTimeConfig)
    ∧ _controller_getMinTimeJump
        (controller_managerFinishedCurrentRound s4Controller 0).controller =
      5 * SIMTIME_ONE_MILLISECOND :=
  ⟨getMinTimeJump_eq, by decide⟩

/-! ## Controller construction (claim C5) -/

/-- **C5 (code bug).** `controller_new(config)` allocates the controller,
seeds the random source from `config.seed` and captures `minJumpTimeConfig`
from `config.runahead` — but, contrary to the claim (and to the function's own
comment that nothing in it may log), it emits the log message
"simulation controller created". -/
theorem controller_new_spec :
    ∀ config : ConfigOptions,
      (controller_new config).controller.randomSeed = config.seed
      ∧ (controller_new config).controller.minJumpTimeConfig = config.runahead
      ∧ (controller_new config).logs = ["simulation controller created"]
      ∧ (controller_new config).logs ≠ [] :=
  fun _ => ⟨rfl, rfl, rfl, by simp [controller_new]⟩

/-! ## File-server code strings (claim C6) -/

/-- **C6 (code bug).** `fileserver_codetoa` should return a table entry only
for `0 ≤ index < 14` and `NULL` otherwise; the code's range check
`index < sizeof(fileserver_code_strings)` compares against the byte count 112,
so indices 14..111 pass the check and read past the 14-entry table instead of
returning `NULL`. -/
theorem fileserver_codetoa_spec :
    fileserver_codetoa 0 = CodetoaResult.str "FS_SUCCESS"
    ∧ fileserver_codetoa 13 = CodetoaResult.str "FS_ERR_CLOSE"
    ∧ fileserver_codetoa 14 = CodetoaResult.oobRead
    ∧ fileserver_codetoa 111 = CodetoaResult.oobRead
    ∧ fileserver_codetoa 112 = CodetoaResult.null
    ∧ fileserver_codetoa (-1) = CodetoaResult.null := by
  decide

/-! ## Latency observation (claim C9) -/

/-- **C9.** `controller_updateMinTimeJump` truncates its `double`
millisecond latency to a whole number of milliseconds before converting to
nanoseconds: any latency in `[k, k+1)` ms with `k ≥ 1` is recorded as exactly
`k` ms when the update branch is taken (so 2.5 ms is recorded as 2 ms); and
for every latency strictly between 0 and 1 ms the converted value is 0 ns, the
update branch is taken (its condition holds for every `nextMinJumpTime`), and
the internal assertion `minPathLatencySimTime > 0` fails, aborting the
program. -/
theorem updateMinTimeJump_spec :
    (∀ (c : Controller) (q : ℚ) (k : Nat),
      1 ≤ k → (k : ℚ) ≤ q → q < (k : ℚ) + 1 →
      k * SIMTIME_ONE_MILLISECOND < U64_MOD →
      (c.nextMinJumpTime = 0 ∨
        k * SIMTIME_ONE_MILLISECOND < c.nextMinJumpTime) →
      controller_updateMinTimeJump c q =
        Except.ok { c with nextMinJumpTime := k * SIMTIME_ONE_MILLISECOND })
    ∧ (∀ (c : Controller) (q : ℚ), 0 < q → q < 1 →
      controller_updateMinTimeJump c q =
        Except.error AssertViolation.assertionFailed)
    ∧ controller_updateMinTimeJump s5Controller (5 / 2) =
        Except.ok
          { s5Controller with nextMinJumpTime := 2 * SIMTIME_ONE_MILLISECOND } := by
  have hA : ∀ (c : Controller) (q : ℚ) (k : Nat),
      1 ≤ k → (k : ℚ) ≤ q → q < (k : ℚ) + 1 →
      k * SIMTIME_ONE_MILLISECOND < U64_MOD →
      (c.nextMinJumpTime = 0 ∨
        k * SIMTIME_ONE_MILLISECOND < c.nextMinJumpTime) →
      controller_updateMinTimeJump c q =
        Except.ok { c with nextMinJumpTime := k * SIMTIME_ONE_MILLISECOND } := by
    intro c q k hk hlo hhi hlt hbranch
    have hfloor : ⌊q⌋ = (k : ℤ) := by
      rw [Int.floor_eq_iff]
      refine ⟨by exact_mod_cast hlo, ?_⟩
      push_cast
      exact hhi
    have hcast : castDoubleToU64 q = k := by
      unfold castDoubleToU64
      rw [hfloor]
      exact Int.toNat_natCast k
    have hpos : 0 < k * SIMTIME_ONE_MILLISECOND := by
      have hms : 0 < SIMTIME_ONE_MILLISECOND := by
        norm_num [SIMTIME_ONE_MILLISECOND]
      exact Nat.mul_pos hk hms
    unfold controller_updateMinTimeJump
    dsimp only
    rw [hcast, Nat.mod_eq_of_lt hlt, if_pos hbranch, if_pos hpos]
  refine ⟨hA, ?_, hA s5Controller (5 / 2) 2 (by norm_num) (by norm_num)
    (by norm_num) (by decide) (Or.inl rfl)⟩
  intro c q h0 h1
  have hfloor : ⌊q⌋ = 0 := by
    rw [Int.floor_eq_iff]
    refine ⟨by exact_mod_cast h0.le, ?_⟩
    push_cast
    linarith
  have hcast : castDoubleToU64 q = 0 := by
    unfold castDoubleToU64
    rw [hfloor]
    rfl
  unfold controller_updateMinTimeJump
  dsimp only
  rw [hcast]
  have hbranch : c.nextMinJumpTime = 0 ∨
      0 * SIMTIME_ONE_MILLISECOND % U64_MOD < c.nextMinJumpTime := by
    rcases Nat.eq_zero_or_pos c.nextMinJumpTime with h | h
    · exact Or.inl h
    · refine Or.inr ?_
      simpa using h
  rw [if_pos hbranch, if_neg]
  simp

/-- Closed instance of `updateMinTimeJump_spec`: 3.5 ms is recorded as 3 ms,
and 0.5 ms trips the assertion. -/
theorem updateMinTimeJump_spec_witness :
    controller_updateMinTimeJump wrapController (7 / 2) =
      Except.ok
        { wrapController with nextMinJumpTime := 3 * SIMTIME_ONE_MILLISECOND }
    ∧ controller_updateMinTimeJump wrapController (1 / 2) =
      Except.error AssertViolation.assertionFailed :=
  ⟨updateMinTimeJump_spec.1 wrapController (7 / 2) 3 (by norm_num) (by norm_num)
      (by norm_num) (by decide) (Or.inl rfl),
    updateMinTimeJump_spec.2.1 wrapController (1 / 2) (by norm_num) (by norm_num)⟩

/-! ## Window past the end time (claim C10) -/

/-- **C10 (amended).**  When `minNextEventTime > endTime` and the `guint64`
sum `minNextEventTime + getMinTimeJump()` does not wrap,
`controller_managerFinishedCurrentRound` still overwrites the stored window
and writes both out-parameters: the window becomes
`(minNextEventTime, endTime)`, so `windowStart` exceeds `windowEnd` (not a
well-formed half-open range) while `keepRunning` is false.  (The original
claim, without the no-overflow proviso, fails: see the counterexample.) -/
theorem round_pastEnd_spec (c : Controller) (m : Nat)
    (hend : c.endTime < m)
    (hnoof : m + _controller_getMinTimeJump (commitNextMinJumpTime c) < U64_MOD) :
    (controller_managerFinishedCurrentRound c m).executeWindowStart = m
    ∧ (controller_managerFinishedCurrentRound c m).executeWindowEnd = c.endTime
    ∧ (controller_managerFinishedCurrentRound c m).controller.executeWindowStart = m
    ∧ (controller_managerFinishedCurrentRound c m).controller.executeWindowEnd
        = c.endTime
    ∧ (controller_managerFinishedCurrentRound c m).executeWindowEnd
        < (controller_managerFinishedCurrentRound c m).executeWindowStart
    ∧ (controller_managerFinishedCurrentRound c m).keepRunning = false := by
  have hjump := getMinTimeJump_pos (commitNextMinJumpTime c)
  have hstart : (controller_managerFinishedCurrentRound c m).executeWindowStart
      = m := rfl
  have hend' : (controller_managerFinishedCurrentRound c m).executeWindowEnd
      = c.endTime := by
    rw [round_executeWindowEnd, Nat.mod_eq_of_lt hnoof]
    exact min_eq_right (by omega)
  refine ⟨rfl, hend', rfl, hend', ?_, ?_⟩
  · rw [hend', hstart]
    exact hend
  · rw [Bool.eq_false_iff]
    intro hk
    have hlt := (round_keepRunning_iff c m).mp hk
    rw [hend', hstart] at hlt
    omega

/-- **C10 counterexample.**  At `minNextEventTime = 2^64 - 1` the `guint64`
sum wraps: with `endTime` 100 ms and committed lookahead 10 ms the stored and
returned window end is 9999999 ns, not `endTime`, although
`minNextEventTime > endTime` — so the claim's `windowEnd = endTime` is false
as stated. -/
theorem round_pastEnd_counterexample :
    wrapController.endTime < G_MAXUINT64
    ∧ (controller_managerFinishedCurrentRound wrapController
        G_MAXUINT64).executeWindowEnd ≠ wrapController.endTime := by
  decide

/-- Closed instance of `round_pastEnd_spec` at `minNextEventTime` 200 ms. -/
theorem round_pastEnd_spec_witness :
    (wrapController.endTime < 200 * SIMTIME_ONE_MILLISECOND
      ∧ 200 * SIMTIME_ONE_MILLISECOND +
          _controller_getMinTimeJump (commitNextMinJumpTime wrapController)
        < U64_MOD)
    ∧ ((controller_managerFinishedCurrentRound wrapController
          (200 * SIMTIME_ONE_MILLISECOND)).executeWindowStart
        = 200 * SIMTIME_ONE_MILLISECOND
      ∧ (controller_managerFinishedCurrentRound wrapController
          (200 * SIMTIME_ONE_MILLISECOND)).executeWindowEnd
        = wrapController.endTime
      ∧ (controller_managerFinishedCurrentRound wrapController
          (200 * SIMTIME_ONE_MILLISECOND)).controller.executeWindowStart
        = 200 * SIMTIME_ONE_MILLISECOND
      ∧ (controller_managerFinishedCurrentRound wrapController
          (200 * SIMTIME_ONE_MILLISECOND)).controller.executeWindowEnd
        = wrapController.endTime
      ∧ (controller_managerFinishedCurrentRound wrapController
          (200 * SIMTIME_ONE_MILLISECOND)).executeWindowEnd
        < (controller_managerFinishedCurrentRound wrapController
            (200 * SIMTIME_ONE_MILLISECOND)).executeWindowStart
      ∧ (controller_managerFinishedCurrentRound wrapController
          (200 * SIMTIME_ONE_MILLISECOND)).keepRunning = false) :=
  ⟨⟨by decide, by decide⟩,
    round_pastEnd_spec wrapController (200 * SIMTIME_ONE_MILLISECOND)
      (by decide) (by decide)⟩

/-! ## Window monotonicity (claim C3) -/

/-- **C3 (amended).**  For a call made under the workers' contract
(`minNextEventTime` at least the previous `windowEnd`) *while the previous
round said to keep running* (the previous stored window is non-empty): the
stored `windowStart` strictly increases, the stored `windowEnd` never exceeds
`endTime`, `windowEnd - windowStart` never exceeds `getMinTimeJump()` of the
committed state, and it falls short of `getMinTimeJump()` only when the
remaining horizon `endTime - windowStart` is smaller.  (The original claim,
quantified over every contract-respecting sequence even past the
`keepRunning = false` round, fails: see the counterexample.) -/
theorem window_monotonicity_spec (c : Controller) (m : Nat)
    (hwf : c.WF)
    (hcontract : c.executeWindowEnd ≤ m)
    (hlive : c.executeWindowStart < c.executeWindowEnd) :
    c.executeWindowStart <
      (controller_managerFinishedCurrentRound c m).controller.executeWindowStart
    ∧ (controller_managerFinishedCurrentRound c m).controller.executeWindowEnd
        ≤ c.endTime
    ∧ (controller_managerFinishedCurrentRound c m).controller.executeWindowEnd -
        (controller_managerFinishedCurrentRound c m).controller.executeWindowStart
      ≤ _controller_getMinTimeJump (commitNextMinJumpTime c)
    ∧ (_controller_getMinTimeJump (commitNextMinJumpTime c) ≤ c.endTime - m →
        (controller_managerFinishedCurrentRound c m).controller.executeWindowEnd -
          (controller_managerFinishedCurrentRound c m).controller.executeWindowStart
        = _controller_getMinTimeJump (commitNextMinJumpTime c)) := by
  obtain ⟨hcfg, hmjt, hnext, _, _, hET, _⟩ := hwf
  have h1 : (commitNextMinJumpTime c).minJumpTime < U64_MOD := by
    rw [commit_minJumpTime]
    split <;> omega
  have h2 : (commitNextMinJumpTime c).minJumpTimeConfig < U64_MOD := by
    rw [commit_minJumpTimeConfig]
    exact hcfg
  have hJpos := getMinTimeJump_pos (commitNextMinJumpTime c)
  have hJlt := getMinTimeJump_lt _ h1 h2
  have hstart :
      (controller_managerFinishedCurrentRound c m).controller.executeWindowStart
        = m := rfl
  have hendeq :
      (controller_managerFinishedCurrentRound c m).controller.executeWindowEnd
        = min ((m + _controller_getMinTimeJump (commitNextMinJumpTime c)) %
            U64_MOD) c.endTime :=
    round_executeWindowEnd c m
  have hminR : min ((m + _controller_getMinTimeJump (commitNextMinJumpTime c)) %
      U64_MOD) c.endTime ≤ c.endTime := min_le_right _ _
  have hminL : min ((m + _controller_getMinTimeJump (commitNextMinJumpTime c)) %
      U64_MOD) c.endTime ≤
      (m + _controller_getMinTimeJump (commitNextMinJumpTime c)) % U64_MOD :=
    min_le_left _ _
  have hmodle : (m + _controller_getMinTimeJump (commitNextMinJumpTime c)) %
      U64_MOD ≤ m + _controller_getMinTimeJump (commitNextMinJumpTime c) :=
    Nat.mod_le _ _
  refine ⟨by omega, by rw [hendeq]; exact hminR, ?_, ?_⟩
  · rw [hendeq, hstart]
    omega
  · intro hhor
    have hsum : m + _controller_getMinTimeJump (commitNextMinJumpTime c)
        ≤ c.endTime := by omega
    have hmod : (m + _controller_getMinTimeJump (commitNextMinJumpTime c)) %
        U64_MOD = m + _controller_getMinTimeJump (commitNextMinJumpTime c) :=
      Nat.mod_eq_of_lt (by omega)
    rw [hendeq, hstart, hmod, min_eq_left hsum]
    omega

/-- **C3 counterexample.**  Under the contract alone (each reported
`minNextEventTime` at least the previous `windowEnd`), the stored
`windowStart` can decrease: after a round reporting 200 ms (past `endTime`
100 ms) a contract-respecting round reporting 100 ms moves `windowStart` from
200 ms back down to 100 ms. -/
theorem window_monotonicity_counterexample :
    (s5Controller.executeWindowEnd ≤ 200 * SIMTIME_ONE_MILLISECOND
      ∧ (controller_managerFinishedCurrentRound s5Controller
          (200 * SIMTIME_ONE_MILLISECOND)).controller.executeWindowEnd
        ≤ 100 * SIMTIME_ONE_MILLISECOND)
    ∧ (controller_managerFinishedCurrentRound
        (controller_managerFinishedCurrentRound s5Controller
          (200 * SIMTIME_ONE_MILLISECOND)).controller
        (100 * SIMTIME_ONE_MILLISECOND)).controller.executeWindowStart
      < (controller_managerFinishedCurrentRound s5Controller
          (200 * SIMTIME_ONE_MILLISECOND)).controller.executeWindowStart := by
  decide

/-- Closed instance of `window_monotonicity_spec` at the S5 state and
`minNextEventTime` 30 ms. -/
theorem window_monotonicity_spec_witness :
    (s5Controller.WF
      ∧ s5Controller.executeWindowEnd ≤ 30 * SIMTIME_ONE_MILLISECOND
      ∧ s5Controller.executeWindowStart < s5Controller.executeWindowEnd)
    ∧ (s5Controller.executeWindowStart <
        (controller_managerFinishedCurrentRound s5Controller
          (30 * SIMTIME_ONE_MILLISECOND)).controller.executeWindowStart
      ∧ (controller_managerFinishedCurrentRound s5Controller
          (30 * SIMTIME_ONE_MILLISECOND)).controller.executeWindowEnd
          ≤ s5Controller.endTime
      ∧ (controller_managerFinishedCurrentRound s5Controller
          (30 * SIMTIME_ONE_MILLISECOND)).controller.executeWindowEnd -
          (controller_managerFinishedCurrentRound s5Controller
            (30 * SIMTIME_ONE_MILLISECOND)).controller.executeWindowStart
        ≤ _controller_getMinTimeJump (commitNextMinJumpTime s5Controller)
      ∧ (_controller_getMinTimeJump (commitNextMinJumpTime s5Controller)
            ≤ s5Controller.endTime - 30 * SIMTIME_ONE_MILLISECOND →
          (controller_managerFinishedCurrentRound s5Controller
            (30 * SIMTIME_ONE_MILLISECOND)).controller.executeWindowEnd -
            (controller_managerFinishedCurrentRound s5Controller
              (30 * SIMTIME_ONE_MILLISECOND)).controller.executeWindowStart
          = _controller_getMinTimeJump (commitNextMinJumpTime s5Controller))) :=
  ⟨⟨by constructor <;> decide, by decide, by decide⟩,
    window_monotonicity_spec s5Controller (30 * SIMTIME_ONE_MILLISECOND)
      (by constructor <;> decide) (by decide) (by decide)⟩

/-! ## Host registration helper lemmas -/

/-- The pass-1 callback rejects an explicit address with quantity above one,
touching neither the IP assignment nor the manager. -/
theorem registerHostCallback_ambiguous (config : ConfigOptions)
    (graph : NetworkGraph) (freq : Nat) (st : RegState) (host : HostOptions)
    (hs : host.ipAddr.isSome = true) (hq : host.quantity > 1) :
    _controller_registerHostCallback config graph freq true st host
      = (st, some Err.errAmbiguousAddress) := by
  simp [_controller_registerHostCallback, hs, hq]

/-- Iterating over a host list that contains an explicit-address entry with
quantity above one fails in pass 1. -/
theorem iterHosts_pass1_fails (config : ConfigOptions) (graph : NetworkGraph)
    (freq : Nat) :
    ∀ (l : List HostOptions) (st : RegState),
      (∃ h ∈ l, h.ipAddr.isSome = true ∧ h.quantity > 1) →
      ∃ st' e,
        iterHosts (_controller_registerHostCallback config graph freq true) l st
          = (st', some e) := by
  intro l
  induction l with
  | nil =>
    intro st hex
    obtain ⟨h, hmem, _⟩ := hex
    cases hmem
  | cons hd tl ih =>
    intro st hex
    obtain ⟨h, hmem, hsome, hq⟩ := hex
    rcases hcb : _controller_registerHostCallback config graph freq true st hd
      with ⟨st1, e?⟩
    cases e? with
    | some e =>
      exact ⟨st1, e, by simp [iterHosts, hcb]⟩
    | none =>
      rcases List.mem_cons.mp hmem with hEq | hmem'
      · subst hEq
        rw [registerHostCallback_ambiguous config graph freq st h hsome hq]
          at hcb
        simp at hcb
      · obtain ⟨st', e, hiter⟩ := ih st1 ⟨h, hmem', hsome, hq⟩
        exact ⟨st', e, by simp [iterHosts, hcb, hiter]⟩

/-- An option whose `isSome` is `false` is `none`. -/
theorem option_eq_none_of_isSome_false {α : Type} {o : Option α}
    (h : o.isSome = false) : o = none := by
  cases o
  · rfl
  · simp at h

/-- Registering a process never changes the manager's host list. -/
theorem registerProcessCallback_hosts (mgr : Manager) (hn : String)
    (p : ProcessOptions) :
    (_controller_registerProcessCallback mgr hn p).1.hosts = mgr.hosts := by
  unfold _controller_registerProcessCallback
  rcases p.path with _ | plugin <;> rfl

/-- Iterating over process entries never changes the manager's host list. -/
theorem iterProcesses_hosts (hn : String) :
    ∀ (l : List ProcessOptions) (mgr : Manager),
      (iterProcesses hn mgr l).1.hosts = mgr.hosts := by
  intro l
  induction l with
  | nil => intro mgr; rfl
  | cons p rest ih =>
    intro mgr
    rcases hpc : _controller_registerProcessCallback mgr hn p with ⟨mgr1, e?⟩
    have h1 : mgr1.hosts = mgr.hosts := by
      have h := registerProcessCallback_hosts mgr hn p
      rw [hpc] at h
      exact h
    cases e? with
    | some e => simpa [iterProcesses, hpc] using h1
    | none =>
      rw [iterProcesses, hpc]
      dsimp only
      rw [ih mgr1, h1]

/-! ## Ambiguous explicit address (claim C7) -/

/-- **C7.**  An entry with an explicit IP address and quantity above one makes
the registration callback fail — with the state exactly as it was, so no IP is
assigned and no host instance is registered for that entry — and `run`
surfaces exit code 1 (given that the graph loaded and the manager was
created, i.e. execution reaches host registration). -/
theorem ambiguousAddress_spec :
    (∀ (config : ConfigOptions) (graph : NetworkGraph) (freq : Nat)
        (st : RegState) (host : HostOptions),
      host.ipAddr.isSome = true → host.quantity > 1 →
      _controller_registerHostCallback config graph freq true st host
        = (st, some Err.errAmbiguousAddress))
    ∧ (∀ (config : ConfigOptions) (w : World) (g : NetworkGraph),
      w.graphLoad = some g → w.managerOk = true →
      (∃ host ∈ config.hosts, host.ipAddr.isSome = true ∧ host.quantity > 1) →
      ∃ st, controller_run config w = RunResult.exited 1 st) := by
  refine ⟨registerHostCallback_ambiguous, ?_⟩
  intro config w g hg hmgr hex
  obtain ⟨st', e, hiter⟩ :=
    iterHosts_pass1_fails config g w.managerCpuFreq config.hosts
      (RegState.init w) hex
  refine ⟨st', ?_⟩
  simp [controller_run, hg, hmgr, _controller_registerHosts, hiter]

/-- Closed instance of `ambiguousAddress_spec`: scenario S6 (explicit IP with
quantity 3) makes the callback fail without touching the state, and `run`
exits 1. -/
theorem ambiguousAddress_spec_witness :
    ((({ hostWithFixedIp with quantity := 3 } : HostOptions).ipAddr.isSome = true
        ∧ ({ hostWithFixedIp with quantity := 3 } : HostOptions).quantity > 1)
      ∧ demoWorld.graphLoad = some smallGraph ∧ demoWorld.managerOk = true
      ∧ ({ hostWithFixedIp with quantity := 3 } : HostOptions) ∈
          ambiguousConfig.hosts)
    ∧ _controller_registerHostCallback ambiguousConfig smallGraph 2200000 true
        (RegState.init demoWorld) { hostWithFixedIp with quantity := 3 }
      = (RegState.init demoWorld, some Err.errAmbiguousAddress)
    ∧ (∃ st, controller_run ambiguousConfig demoWorld = RunResult.exited 1 st) :=
  ⟨⟨⟨by decide, by decide⟩, rfl, rfl, by decide⟩,
    ambiguousAddress_spec.1 ambiguousConfig smallGraph 2200000
      (RegState.init demoWorld) { hostWithFixedIp with quantity := 3 }
      (by decide) (by decide),
    ambiguousAddress_spec.2 ambiguousConfig demoWorld smallGraph rfl rfl
      ⟨{ hostWithFixedIp with quantity := 3 }, by decide, by decide, by decide⟩⟩

/-! ## Bandwidth resolution (claim C8) -/

/-- **C8.**  For a host instance whose IP assignment succeeded: each direction
of bandwidth resolves to the host option when present and otherwise to the
graph node's value (host options override the graph); if either direction is
supplied by neither source, or either resolved value is zero, the instance
registration fails with the bandwidth error and the host is not added (the
manager is untouched); otherwise the host is added with exactly the resolved
bandwidths. -/
theorem bandwidth_resolution_spec (config : ConfigOptions)
    (graph : NetworkGraph) (host : HostOptions) (freq i : Nat) (st : RegState)
    (ipa : IpAssignment) (ip : Nat)
    (hassign : assignIpForInstance st.ipAssignment host.networkNodeId host.ipAddr
      = Except.ok (ipa, ip)) :
    (((networkgraph_nodeBandwidthDownBits graph host.networkNodeId = none
          ∧ host.bandwidthDown = none)
        ∨ (networkgraph_nodeBandwidthUpBits graph host.networkNodeId = none
          ∧ host.bandwidthUp = none)
        ∨ host.bandwidthDown.getD
            ((networkgraph_nodeBandwidthDownBits graph host.networkNodeId).getD 0)
          = 0
        ∨ host.bandwidthUp.getD
            ((networkgraph_nodeBandwidthUpBits graph host.networkNodeId).getD 0)
          = 0) →
      registerOneInstance config graph host freq i st
        = ({ st with ipAssignment := ipa }, some Err.errBandwidth))
    ∧ (¬ ((networkgraph_nodeBandwidthDownBits graph host.networkNodeId = none
          ∧ host.bandwidthDown = none)
        ∨ (networkgraph_nodeBandwidthUpBits graph host.networkNodeId = none
          ∧ host.bandwidthUp = none)
        ∨ host.bandwidthDown.getD
            ((networkgraph_nodeBandwidthDownBits graph host.networkNodeId).getD 0)
          = 0
        ∨ host.bandwidthUp.getD
            ((networkgraph_nodeBandwidthUpBits graph host.networkNodeId).getD 0)
          = 0) →
      ∃ p : HostParameters,
        (registerOneInstance config graph host freq i st).1.manager.hosts
          = st.manager.hosts ++ [(host, p)]
        ∧ p.ipAddr = ip
        ∧ p.requestedBwDownBits = host.bandwidthDown.getD
            ((networkgraph_nodeBandwidthDownBits graph host.networkNodeId).getD 0)
        ∧ p.requestedBwUpBits = host.bandwidthUp.getD
            ((networkgraph_nodeBandwidthUpBits graph host.networkNodeId).getD 0)) := by
  unfold registerOneInstance
  dsimp only
  rw [hassign]
  dsimp only
  generalize (if host.quantity > 1 then host.name ++ toString (i + 1)
    else host.name) = hn
  constructor
  · intro hmiss
    split_ifs with h1 h2 h3
    · rfl
    · rfl
    · rfl
    · exfalso
      rcases hmiss with ⟨hgdn, hbdn⟩ | ⟨hgun, hbun⟩ | hz | hz
      · exact h1 (by simp [hgdn, hbdn])
      · exact h2 (by simp [hgun, hbun])
      · exact h3 (Or.inl hz)
      · exact h3 (Or.inr hz)
  · intro hok
    split_ifs with h1 h2 h3
    · exfalso
      simp only [Bool.not_eq_eq_eq_not, Bool.not_true, Bool.or_eq_false_iff]
        at h1
      exact hok (Or.inl ⟨option_eq_none_of_isSome_false h1.1,
        option_eq_none_of_isSome_false h1.2⟩)
    · exfalso
      simp only [Bool.not_eq_eq_eq_not, Bool.not_true, Bool.or_eq_false_iff]
        at h2
      exact hok (Or.inr (Or.inl ⟨option_eq_none_of_isSome_false h2.1,
        option_eq_none_of_isSome_false h2.2⟩))
    · exfalso
      rcases h3 with hz | hz
      · exact hok (Or.inr (Or.inr (Or.inl hz)))
      · exact hok (Or.inr (Or.inr (Or.inr hz)))
    · generalize hpp :
        ({ hostname := hn,
           cpuFrequency := max 0 freq,
           cpuThreshold := 0,
           cpuPrecision := 200,
           ipAddr := ip,
           logLevel := host.logLevel,
           heartbeatLogLevel := host.heartbeatLogLevel,
           heartbeatLogInfo := host.heartbeatLogInfo,
           heartbeatInterval := host.heartbeatInterval,
           pcapDir := host.pcapDirectory,
           sendBufSize := config.socketSendBuffer,
           recvBufSize := config.socketRecvBuffer,
           autotuneSendBuf := config.socketSendAutotune,
           autotuneRecvBuf := config.socketRecvAutotune,
           interfaceBufSize := config.interfaceBuffer,
           qdisc := config.interfaceQdisc,
           requestedBwDownBits := host.bandwidthDown.getD
             ((networkgraph_nodeBandwidthDownBits graph host.networkNodeId).getD 0),
           requestedBwUpBits := host.bandwidthUp.getD
             ((networkgraph_nodeBandwidthUpBits graph host.networkNodeId).getD 0) }
          : HostParameters) = pms
      rcases hip : iterProcesses hn
          { rawCPUFrequency := st.manager.rawCPUFrequency,
            hosts := st.manager.hosts ++ [(host, pms)],
            processes := st.manager.processes }
          host.processes with ⟨mgr2, e2⟩
      have h := iterProcesses_hosts hn host.processes
        { rawCPUFrequency := st.manager.rawCPUFrequency,
          hosts := st.manager.hosts ++ [(host, pms)],
          processes := st.manager.processes }
      rw [hip] at h
      refine ⟨pms, ?_, ?_, ?_, ?_⟩
      · cases e2 <;> exact h
      · rw [← hpp]
      · rw [← hpp]
      · rw [← hpp]

/-- Closed instance of `bandwidth_resolution_spec` for the fixed-IP host on
`smallGraph` (bandwidth supplied by both sources; host options win). -/
theorem bandwidth_resolution_spec_witness :
    (assignIpForInstance (RegState.init demoWorld).ipAssignment
        hostWithFixedIp.networkNodeId hostWithFixedIp.ipAddr
      = Except.ok
          ({ assignments := [(167772165, 0)], pool := demoPool }, 167772165))
    ∧ ((((networkgraph_nodeBandwidthDownBits smallGraph
            hostWithFixedIp.networkNodeId = none
          ∧ hostWithFixedIp.bandwidthDown = none)
        ∨ (networkgraph_nodeBandwidthUpBits smallGraph
            hostWithFixedIp.networkNodeId = none
          ∧ hostWithFixedIp.bandwidthUp = none)
        ∨ hostWithFixedIp.bandwidthDown.getD
            ((networkgraph_nodeBandwidthDownBits smallGraph
              hostWithFixedIp.networkNodeId).getD 0) = 0
        ∨ hostWithFixedIp.bandwidthUp.getD
            ((networkgraph_nodeBandwidthUpBits smallGraph
              hostWithFixedIp.networkNodeId).getD 0) = 0) →
      registerOneInstance twoHostConfig smallGraph hostWithFixedIp 2200000 0
          (RegState.init demoWorld)
        = ({ RegState.init demoWorld with
              ipAssignment :=
                { assignments := [(167772165, 0)], pool := demoPool } },
            some Err.errBandwidth))
    ∧ (¬ ((networkgraph_nodeBandwidthDownBits smallGraph
            hostWithFixedIp.networkNodeId = none
          ∧ hostWithFixedIp.bandwidthDown = none)
        ∨ (networkgraph_nodeBandwidthUpBits smallGraph
            hostWithFixedIp.networkNodeId = none
          ∧ hostWithFixedIp.bandwidthUp = none)
        ∨ hostWithFixedIp.bandwidthDown.getD
            ((networkgraph_nodeBandwidthDownBits smallGraph
              hostWithFixedIp.networkNodeId).getD 0) = 0
        ∨ hostWithFixedIp.bandwidthUp.getD
            ((networkgraph_nodeBandwidthUpBits smallGraph
              hostWithFixedIp.networkNodeId).getD 0) = 0) →
      ∃ p : HostParameters,
        (registerOneInstance twoHostConfig smallGraph hostWithFixedIp 2200000 0
            (RegState.init demoWorld)).1.manager.hosts
          = (RegState.init demoWorld).manager.hosts ++ [(hostWithFixedIp, p)]
        ∧ p.ipAddr = 167772165
        ∧ p.requestedBwDownBits = hostWithFixedIp.bandwidthDown.getD
            ((networkgraph_nodeBandwidthDownBits smallGraph
              hostWithFixedIp.networkNodeId).getD 0)
        ∧ p.requestedBwUpBits = hostWithFixedIp.bandwidthUp.getD
            ((networkgraph_nodeBandwidthUpBits smallGraph
              hostWithFixedIp.networkNodeId).getD 0))) :=
  ⟨rfl,
    bandwidth_resolution_spec twoHostConfig smallGraph hostWithFixedIp 2200000 0
      (RegState.init demoWorld)
      { assignments := [(167772165, 0)], pool := demoPool } 167772165
      rfl⟩

/-! ## Two-pass registration lemmas (claim C4) -/

/-- A draw from the pool never returns an already-assigned address. -/
theorem poolDraw_not_assigned (assigned : List Nat) :
    ∀ (pool : List Nat) (ip : Nat) (rest : List Nat),
      poolDraw assigned pool = some (ip, rest) → ip ∉ assigned := by
  intro pool
  induction pool with
  | nil =>
    intro ip rest h
    cases h
  | cons w ws ih =>
    intro ip rest h
    unfold poolDraw at h
    dsimp only at h
    split at h
    · exact ih ip rest h
    · rename_i hcond
      injection h with h'
      injection h' with hip hrest
      subst hip
      intro hmem
      exact hcond (Or.inr (List.elem_iff.mpr hmem))

/-- A successful fixed-address assignment prepends exactly that address. -/
theorem assignHostWithIp_assigned {a : IpAssignment} {node ip : Nat}
    {a' : IpAssignment}
    (h : ipassignment_assignHostWithIp a node ip = Except.ok a') :
    assignedIps a' = ip :: assignedIps a := by
  unfold ipassignment_assignHostWithIp at h
  split_ifs at h
  injection h with h'
  subst h'
  rfl

/-- A successful pool assignment prepends a fresh address. -/
theorem assignHost_assigned {a : IpAssignment} {node : Nat}
    {a' : IpAssignment} {ip : Nat}
    (h : ipassignment_assignHost a node = Except.ok (a', ip)) :
    assignedIps a' = ip :: assignedIps a ∧ ip ∉ assignedIps a := by
  unfold ipassignment_assignHost at h
  rcases hpd : poolDraw (assignedIps a) a.pool with _ | ⟨ip0, rest⟩
  · rw [hpd] at h
    cases h
  · rw [hpd] at h
    dsimp only at h
    injection h with h'
    injection h' with ha hip
    subst ha
    subst hip
    exact ⟨rfl, poolDraw_not_assigned _ _ _ _ hpd⟩

/-- The instance IP-assignment step: it prepends the returned address, the
address is fresh when drawn from the pool, and it is the explicit one when an
explicit address was configured. -/
theorem assignIpForInstance_spec {a : IpAssignment} {node : Nat}
    {ipOpt : Option Nat} {a' : IpAssignment} {ip : Nat}
    (h : assignIpForInstance a node ipOpt = Except.ok (a', ip)) :
    assignedIps a' = ip :: assignedIps a
    ∧ (ipOpt = none → ip ∉ assignedIps a)
    ∧ (∀ x, ipOpt = some x → ip = x) := by
  cases ipOpt with
  | some fixed =>
    unfold assignIpForInstance at h
    dsimp only at h
    rcases heq : ipassignment_assignHostWithIp a node fixed with e | a2
    · rw [heq] at h
      cases h
    · rw [heq] at h
      dsimp only at h
      injection h with h'
      injection h' with ha hip
      subst ha
      subst hip
      exact ⟨assignHostWithIp_assigned heq, fun hc => (nomatch hc),
        fun x hx => by injection hx⟩
  | none =>
    unfold assignIpForInstance at h
    dsimp only at h
    obtain ⟨h1, h2⟩ := assignHost_assigned h
    exact ⟨h1, fun _ => h2, fun x hx => by cases hx⟩

/-- One instance registration: the assigned-address set only grows; every new
host record comes from this entry and, when the entry has no explicit address,
carries an address that was not previously assigned; and an error-free
instance of an explicit-address entry leaves that address assigned. -/
theorem registerOneInstance_state (config : ConfigOptions)
    (graph : NetworkGraph) (host : HostOptions) (freq i : Nat)
    (st st' : RegState) (e? : Option Err)
    (h : registerOneInstance config graph host freq i st = (st', e?)) :
    (∀ x, x ∈ assignedIps st.ipAssignment → x ∈ assignedIps st'.ipAssignment)
    ∧ (∀ r, r ∈ st'.manager.hosts → r ∈ st.manager.hosts ∨
        (r.1 = host ∧ (host.ipAddr = none →
          r.2.ipAddr ∉ assignedIps st.ipAssignment)))
    ∧ (∀ x, host.ipAddr = some x → e? = none →
        x ∈ assignedIps st'.ipAssignment) := by
  unfold registerOneInstance at h
  dsimp only at h
  rcases hassign : assignIpForInstance st.ipAssignment host.networkNodeId
      host.ipAddr with e0 | ⟨ipa, ip⟩
  · rw [hassign] at h
    dsimp only at h
    injection h with hst he
    subst hst
    subst he
    exact ⟨fun x hx => hx, fun r hr => Or.inl hr, fun x _ he => (nomatch he)⟩
  · rw [hassign] at h
    dsimp only at h
    obtain ⟨hA, hfresh0, hfix0⟩ := assignIpForInstance_spec hassign
    have hmemIp : ∀ x, host.ipAddr = some x → x ∈ assignedIps ipa := by
      intro x hsx
      rw [hA, ← hfix0 x hsx]
      exact List.mem_cons_self _ _
    split_ifs at h with h1 h2 h3
    · injection h with hst he
      subst hst
      subst he
      refine ⟨?_, fun r hr => Or.inl hr, fun x hsx he => (nomatch he)⟩
      intro x hx
      show x ∈ assignedIps ipa
      rw [hA]
      exact List.mem_cons_of_mem _ hx
    · injection h with hst he
      subst hst
      subst he
      refine ⟨?_, fun r hr => Or.inl hr, fun x hsx he => (nomatch he)⟩
      intro x hx
      show x ∈ assignedIps ipa
      rw [hA]
      exact List.mem_cons_of_mem _ hx
    · injection h with hst he
      subst hst
      subst he
      refine ⟨?_, fun r hr => Or.inl hr, fun x hsx he => (nomatch he)⟩
      intro x hx
      show x ∈ assignedIps ipa
      rw [hA]
      exact List.mem_cons_of_mem _ hx
    all_goals
      split at h
      all_goals
        rename_i mgr2 e2 heq
        injection h with hst he
        subst hst
        subst he
        have hh := congrArg (fun p => p.1.hosts) heq
        dsimp only at hh
        rw [iterProcesses_hosts] at hh
        dsimp only at hh
        refine ⟨?_, ?_, fun x hsx he => hmemIp x hsx⟩
        · intro x hx
          show x ∈ assignedIps ipa
          rw [hA]
          exact List.mem_cons_of_mem _ hx
        · intro r hr
          dsimp only at hr
          rw [← hh] at hr
          rcases List.mem_append.mp hr with hin | hnew
          · exact Or.inl hin
          · have hreq := List.mem_singleton.mp hnew
            subst hreq
            exact Or.inr ⟨rfl, fun hnone => hfresh0 hnone⟩

/-- The instance loop: assigned addresses only grow, new host records come
from this entry with fresh addresses (relative to the loop's start) when no
explicit address is set, and an error-free run over a non-empty index list
leaves an explicit address assigned. -/
theorem registerInstances_state (config : ConfigOptions) (graph : NetworkGraph)
    (host : HostOptions) (freq : Nat) :
    ∀ (l : List Nat) (st st' : RegState) (e? : Option Err),
      registerInstances config graph host freq l st = (st', e?) →
      (∀ x, x ∈ assignedIps st.ipAssignment → x ∈ assignedIps st'.ipAssignment)
      ∧ (∀ r, r ∈ st'.manager.hosts → r ∈ st.manager.hosts ∨
          (r.1 = host ∧ (host.ipAddr = none →
            r.2.ipAddr ∉ assignedIps st.ipAssignment)))
      ∧ (∀ x, host.ipAddr = some x → l ≠ [] → e? = none →
          x ∈ assignedIps st'.ipAssignment) := by
  intro l
  induction l with
  | nil =>
    intro st st' e? h
    unfold registerInstances at h
    injection h with hst he
    subst hst
    subst he
    exact ⟨fun x hx => hx, fun r hr => Or.inl hr,
      fun x _ hne _ => absurd rfl hne⟩
  | cons i rest ih =>
    intro st st' e? h
    unfold registerInstances at h
    rcases h0 : registerOneInstance config graph host freq i st with ⟨st1, e1⟩
    rw [h0] at h
    obtain ⟨m1, r1, f1⟩ := registerOneInstance_state config graph host freq i
      st st1 e1 h0
    cases e1 with
    | some e =>
      dsimp only at h
      injection h with hst he
      subst hst
      subst he
      exact ⟨m1, r1, fun x hsx _ he => (nomatch he)⟩
    | none =>
      dsimp only at h
      obtain ⟨m2, r2, f2⟩ := ih st1 st' e? h
      refine ⟨fun x hx => m2 x (m1 x hx), ?_, ?_⟩
      · intro r hr
        rcases r2 r hr with hin | ⟨hhost, hfresh⟩
        · rcases r1 r hin with hin0 | ⟨hhost, hfresh⟩
          · exact Or.inl hin0
          · exact Or.inr ⟨hhost, hfresh⟩
        · refine Or.inr ⟨hhost, fun hnone hmem => ?_⟩
          exact hfresh hnone (m1 _ hmem)
      · intro x hsx _ he
        exact m2 x (f1 x hsx rfl)

/-- One pass-callback call: assigned addresses only grow; every new host
record comes from an entry whose explicit-address flag matches the pass and,
for auto-address entries, carries a previously unassigned address; and an
error-free pass-1 call on an explicit-address entry with at least one instance
leaves the explicit address assigned. -/
theorem registerHostCallback_state (config : ConfigOptions)
    (graph : NetworkGraph) (freq : Nat) (flag : Bool) (host : HostOptions)
    (st st' : RegState) (e? : Option Err)
    (h : _controller_registerHostCallback config graph freq flag st host
      = (st', e?)) :
    (∀ x, x ∈ assignedIps st.ipAssignment → x ∈ assignedIps st'.ipAssignment)
    ∧ (∀ r, r ∈ st'.manager.hosts → r ∈ st.manager.hosts ∨
        (r.1.ipAddr.isSome = flag ∧ (r.1.ipAddr = none →
          r.2.ipAddr ∉ assignedIps st.ipAssignment)))
    ∧ (∀ x, host.ipAddr = some x → flag = true → 1 ≤ host.quantity →
        e? = none → x ∈ assignedIps st'.ipAssignment) := by
  unfold _controller_registerHostCallback at h
  dsimp only at h
  split_ifs at h with hskip hamb
  · injection h with hst he
    subst hst
    subst he
    refine ⟨fun x hx => hx, fun r hr => Or.inl hr, ?_⟩
    intro x hsx hflag _ _
    exfalso
    apply hskip
    rw [hsx, hflag]
    rfl
  · injection h with hst he
    subst hst
    subst he
    exact ⟨fun x hx => hx, fun r hr => Or.inl hr,
      fun x _ _ _ he => (nomatch he)⟩
  · obtain ⟨m1, r1, f1⟩ := registerInstances_state config graph host freq
      (List.range host.quantity) st st' e? h
    have hflag : host.ipAddr.isSome = flag := by
      by_contra hne
      exact hskip hne
    refine ⟨m1, ?_, ?_⟩
    · intro r hr
      rcases r1 r hr with hin | ⟨hhost, hfresh⟩
      · exact Or.inl hin
      · subst hhost
        exact Or.inr ⟨hflag, hfresh⟩
    · intro x hsx _ hq he
      refine f1 x hsx ?_ he
      intro hnil
      rw [List.range_eq_nil] at hnil
      omega

/-- One pass over the host list: assigned addresses only grow; every new host
record matches the pass flag and, for auto-address entries, carries an address
unassigned at the start of the pass; and an error-free pass 1 leaves every
explicit address of an entry with at least one instance assigned. -/
theorem iterHosts_callback_state (config : ConfigOptions)
    (graph : NetworkGraph) (freq : Nat) (flag : Bool) :
    ∀ (l : List HostOptions) (st st' : RegState) (e? : Option Err),
      iterHosts (_controller_registerHostCallback config graph freq flag) l st
        = (st', e?) →
      (∀ x, x ∈ assignedIps st.ipAssignment → x ∈ assignedIps st'.ipAssignment)
      ∧ (∀ r, r ∈ st'.manager.hosts → r ∈ st.manager.hosts ∨
          (r.1.ipAddr.isSome = flag ∧ (r.1.ipAddr = none →
            r.2.ipAddr ∉ assignedIps st.ipAssignment)))
      ∧ (∀ x (H : HostOptions), H ∈ l → H.ipAddr = some x → flag = true →
          1 ≤ H.quantity → e? = none → x ∈ assignedIps st'.ipAssignment) := by
  intro l
  induction l with
  | nil =>
    intro st st' e? h
    unfold iterHosts at h
    injection h with hst he
    subst hst
    subst he
    refine ⟨fun x hx => hx, fun r hr => Or.inl hr, ?_⟩
    intro x H hmem
    cases hmem
  | cons hd tl ih =>
    intro st st' e? h
    unfold iterHosts at h
    rcases h0 : _controller_registerHostCallback config graph freq flag st hd
      with ⟨st1, e1⟩
    rw [h0] at h
    obtain ⟨m1, r1, f1⟩ :=
      registerHostCallback_state config graph freq flag hd st st1 e1 h0
    cases e1 with
    | some e =>
      dsimp only at h
      injection h with hst he
      subst hst
      subst he
      exact ⟨m1, r1, fun x H _ _ _ _ he => (nomatch he)⟩
    | none =>
      dsimp only at h
      obtain ⟨m2, r2, f2⟩ := ih st1 st' e? h
      refine ⟨fun x hx => m2 x (m1 x hx), ?_, ?_⟩
      · intro r hr
        rcases r2 r hr with hin | ⟨hflag, hfresh⟩
        · rcases r1 r hin with hin0 | ⟨hflag, hfresh⟩
          · exact Or.inl hin0
          · exact Or.inr ⟨hflag, hfresh⟩
        · refine Or.inr ⟨hflag, fun hnone hmem => ?_⟩
          exact hfresh hnone (m1 _ hmem)
      · intro x H hmem hsx hflag hq he
        rcases List.mem_cons.mp hmem with hEq | hmem'
        · subst hEq
          exact m2 x (f1 x hsx hflag hq rfl)
        · exact f2 x H hmem' hsx hflag hq he

/-- **C4.** Host registration is performed in two passes — pass 1 registers
every `HostOptions` entry whose `ipAddr` is explicitly set, pass 2 the rest —
so for every configuration in which entry `H1` has explicit IP `X` (with at
least one instance) and an entry has no explicit IP, no registered instance of
an explicit-address-free entry is ever assigned `X`, regardless of the
declaration order of the entries. -/
theorem twoPass_fixed_ip_spec (config : ConfigOptions) (graph : NetworkGraph)
    (freq : Nat) (st0 : RegState) (H1 : HostOptions) (X : Nat)
    (hinit : st0.manager.hosts = [])
    (hmem : H1 ∈ config.hosts) (hip : H1.ipAddr = some X)
    (hq : 1 ≤ H1.quantity) :
    ∀ r ∈ (_controller_registerHosts config graph freq st0).1.manager.hosts,
      r.1.ipAddr = none → r.2.ipAddr ≠ X := by
  rcases hreg : _controller_registerHosts config graph freq st0 with ⟨stF, eF⟩
  unfold _controller_registerHosts at hreg
  rcases hp1 : iterHosts
      (_controller_registerHostCallback config graph freq true)
      config.hosts st0 with ⟨st1, e1⟩
  rw [hp1] at hreg
  obtain ⟨m1, r1, f1⟩ := iterHosts_callback_state config graph freq true
    config.hosts st0 st1 e1 hp1
  cases e1 with
  | some e =>
    dsimp only at hreg
    injection hreg with hst he
    subst hst
    intro r hr hnone
    rcases r1 r hr with hin | ⟨hflag, _⟩
    · rw [hinit] at hin
      cases hin
    · rw [hnone] at hflag
      simp at hflag
  | none =>
    dsimp only at hreg
    obtain ⟨m2, r2, f2⟩ := iterHosts_callback_state config graph freq false
      config.hosts st1 stF eF hreg
    have hX : X ∈ assignedIps st1.ipAssignment :=
      f1 X H1 hmem hip rfl hq rfl
    intro r hr hnone
    rcases r2 r hr with hin | ⟨hflag, hfresh⟩
    · rcases r1 r hin with hin0 | ⟨hflag, _⟩
      · rw [hinit] at hin0
        cases hin0
      · rw [hnone] at hflag
        simp at hflag
    · intro hipeq
      refine hfresh hnone ?_
      rw [hipeq]
      exact hX

/-- Closed instance of `twoPass_fixed_ip_spec`: scenario S3-style
configuration in which the auto-IP host is declared before the fixed-IP host
`10.0.0.5`, and the pool's first draw is exactly that address. -/
theorem twoPass_fixed_ip_spec_witness :
    ((RegState.init demoWorld).manager.hosts = []
      ∧ hostWithFixedIp ∈ twoHostConfig.hosts
      ∧ hostWithFixedIp.ipAddr = some 167772165
      ∧ 1 ≤ hostWithFixedIp.quantity)
    ∧ (∀ r ∈ (_controller_registerHosts twoHostConfig smallGraph 2200000
          (RegState.init demoWorld)).1.manager.hosts,
        r.1.ipAddr = none → r.2.ipAddr ≠ 167772165) :=
  ⟨⟨rfl, by decide, rfl, by decide⟩,
    twoPass_fixed_ip_spec twoHostConfig smallGraph 2200000
      (RegState.init demoWorld) hostWithFixedIp 167772165 rfl (by decide) rfl
      (by decide)⟩

end Shadow
